import Mathlib

/-!
Shallow embedding of the SVG_ArtGrid generators (src/SVG_ArtGrid.py and
src/SVGArtGridV2.py).  Python's process-wide `random` module is modelled as an
explicit state: a stream of natural numbers determined by the seed together
with a position.  Machine floats that only ever hold exact small fractions
(1/2, 1/3, 0.299, ...) are modelled as rationals; the single irrational value
produced by the code (the √2 in the thick-diagonal construction of
`draw_cross`) is modelled exactly in the quadratic field ℚ[√2].
-/

/-- Model of CPython's seeded Mersenne Twister (an external stdlib
collaborator): an arbitrary concrete deterministic stream of naturals as a
function of the seed.  All determinism results depend only on the stream
being a function of the seed, not on its distribution. -/
def pyStream (seed : Nat) (n : Nat) : Nat :=
  (1103515245 * (seed + n) + 12345) % 2147483648

/-- State of the process-wide `random` module: the seeded stream plus the
number of draws consumed so far. -/
structure RNG where
  stream : Nat → Nat
  pos : Nat

/-- Model of `random.seed(seed)`. -/
def mkRNG (seed : Nat) : RNG := ⟨pyStream seed, 0⟩

/-- Draw one raw value from the stream. -/
def RNG.next (g : RNG) : Nat × RNG :=
  (g.stream g.pos, ⟨g.stream, g.pos + 1⟩)

/-- Model of `random.randint(lo, hi)` (inclusive bounds).  Python raises
`ValueError` on an empty range `hi < lo`; that failure is modelled as
`none`. -/
def randint (g : RNG) (lo hi : Int) : Option (Int × RNG) :=
  if hi < lo then none
  else
    let (n, g1) := g.next
    some (lo + (n : Int) % (hi - lo + 1), g1)

/-- Model of `random.choice(xs)`.  Python raises `IndexError` on an empty
sequence; that failure is modelled as `none`. -/
def pychoice {α : Type} (g : RNG) (xs : List α) : Option (α × RNG) :=
  match xs with
  | [] => none
  | x :: rest =>
    let (n, g1) := g.next
    some ((x :: rest).getD (n % (rest.length + 1)) x, g1)

/-- Model of `random.choice` on a list that is nonempty by construction
(written as head plus tail, as at the literal-list call sites). -/
def pychoiceD {α : Type} (g : RNG) (x : α) (xs : List α) : α × RNG :=
  let (n, g1) := g.next
  ((x :: xs).getD (n % (xs.length + 1)) x, g1)

/-- Model of `random.random() < num/den` (the code only compares the float
against the exact thresholds 0.3 and 0.5): a Bernoulli draw consuming one
stream element. -/
def randBernoulli (g : RNG) (num den : Nat) : Bool × RNG :=
  let (n, g1) := g.next
  (n % den < num, g1)

/-- Abstract taxonomy of the fatal failures of the generator (the Python code
surfaces them as uncaught `ValueError`/`IndexError` exceptions escaping from
`random.randint`/`random.choice`). -/
inductive GenError where
  | insufficientPalette
  | layoutError
deriving DecidableEq, Repr

/-- Result of `get_two_colors`: the dict
`{"foreground": ..., "background": ...}`. -/
structure TwoColors where
  foreground : String
  background : String
deriving DecidableEq, Repr

/-- Embedding of `get_two_colors(color_palette)` (identical in both source
files).  `color_list = color_palette.copy()`; a random index selects the
background; `pop` removes it from the copy; `random.choice` over the
remainder selects the foreground.  A palette of length 0 makes
`randint(0, -1)` raise, a palette of length 1 makes `random.choice([])`
raise; both abort the run and are mapped to `GenError.insufficientPalette`. -/
def get_two_colors (g : RNG) (color_palette : List String) :
    Except GenError (TwoColors × RNG) :=
  let color_list := color_palette
  match randint g 0 ((color_list.length : Int) - 1) with
  | none => .error .insufficientPalette
  | some (ci, g1) =>
    let idx := ci.toNat
    match color_list.get? idx with
    | none => .error .insufficientPalette
    | some background =>
      let color_list := color_list.eraseIdx idx
      match pychoice g1 color_list with
      | none => .error .insufficientPalette
      | some (foreground, g2) => .ok (⟨foreground, background⟩, g2)

/-- The color pair of a `get_two_colors` outcome, `none` on failure. -/
def twoColorsOf (e : Except GenError (TwoColors × RNG)) : Option TwoColors :=
  e.toOption.map (·.1)

/-- Embedding of the per-channel mixing step of `create_background_colors`
(`r = (r1 + r2) // 2` and likewise for g and b): integer floor average of
two RGB triples. -/
def mix (c1 c2 : Nat × Nat × Nat) : Nat × Nat × Nat :=
  ((c1.1 + c2.1) / 2, (c1.2.1 + c2.2.1) / 2, (c1.2.2 + c2.2.2) / 2)

/-- Embedding of the luma formula of `sample_image_region`:
`0.299 * color[0] + 0.587 * color[1] + 0.114 * color[2]`. -/
def brightness (c : ℚ × ℚ × ℚ) : ℚ :=
  (299 / 1000) * c.1 + (587 / 1000) * c.2.1 + (114 / 1000) * c.2.2

/-- One hex digit, lower case, as produced by Python's `x` format code. -/
def hexDigit (n : Nat) : Char :=
  if n < 10 then Char.ofNat (48 + n) else Char.ofNat (87 + n)

/-- Two-digit lower-case hex of a byte, as produced by `f"{r:02x}"` for
values in [0, 255]. -/
def byteHex (n : Nat) : String :=
  String.mk [hexDigit (n / 16 % 16), hexDigit (n % 16)]

/-- Embedding of `f"#{r:02x}{g:02x}{b:02x}"`. -/
def rgbToHex (r g b : Nat) : String :=
  "#" ++ byteHex r ++ byteHex g ++ byteHex b

/-- A k=2 clustering outcome: the two cluster centroids returned by the
external `sklearn` KMeans (run with `n_clusters=2, random_state=42`) for one
image region, as mean RGB values. -/
structure Centroids where
  c0 : ℚ × ℚ × ℚ
  c1 : ℚ × ℚ × ℚ
deriving DecidableEq

/-- Hex encoding of a centroid: `r, g, b = [int(c) for c in color]` followed
by `f"#{r:02x}{g:02x}{b:02x}"` (Python `int()` truncates; centroids are
nonnegative so this is the floor). -/
def centroidHex (c : ℚ × ℚ × ℚ) : String :=
  rgbToHex (Int.toNat ⌊c.1⌋) (Int.toNat ⌊c.2.1⌋) (Int.toNat ⌊c.2.2⌋)

/-- Embedding of the tail of `sample_image_region` (src/SVGArtGridV2.py,
lines 157-181), taking the two centroids delivered by the external KMeans
call: hex-encode both, score both with `brightness`, sort the
(brightness, hex) pairs ascending as Python's `sorted(zip(...))` does
(lexicographic tuple order), return the darkest as foreground and the
lightest as background. -/
def sample_image_region (cs : Centroids) : TwoColors :=
  let h0 := centroidHex cs.c0
  let h1 := centroidHex cs.c1
  let b0 := brightness cs.c0
  let b1 := brightness cs.c1
  let sorted_colors :=
    if b1 < b0 ∨ (b1 = b0 ∧ h1 < h0) then [h1, h0] else [h0, h1]
  { foreground := sorted_colors.headD h0
    background := sorted_colors.getLastD h1 }

/-- Element of the quadratic field ℚ[√2], representing `a + b·√2`.  The only
irrational number the generator produces is the √2 arising in the
thick-diagonal-line construction of `draw_cross`; all other coordinates are
exact rationals (`b = 0`). -/
structure Q2 where
  a : ℚ
  b : ℚ
deriving DecidableEq

/-- Embed a rational as an element of ℚ[√2]. -/
def q2 (q : ℚ) : Q2 := ⟨q, 0⟩

instance : Add Q2 := ⟨fun p q => ⟨p.a + q.a, p.b + q.b⟩⟩

instance : Neg Q2 := ⟨fun p => ⟨-p.a, -p.b⟩⟩

instance : Sub Q2 := ⟨fun p q => p + -q⟩

instance : Mul Q2 := ⟨fun p q => ⟨p.a * q.a + 2 * p.b * q.b, p.a * q.b + p.b * q.a⟩⟩

/-- Field inverse in ℚ[√2]: `(a + b√2)⁻¹ = (a - b√2) / (a² - 2b²)`. -/
def Q2.inv (p : Q2) : Q2 :=
  let d := p.a * p.a - 2 * p.b * p.b
  ⟨p.a / d, -p.b / d⟩

instance : Div Q2 := ⟨fun p q => p * q.inv⟩

/-- One command of an SVG path, as pushed by `dwg.path(...).push`. -/
inductive PathCmd where
  | move (x y : Q2)
  | arc (rx ry : Q2) (xrot largeArc sweep : Nat) (x y : Q2)
  | line (x y : Q2)

/-- A drawing primitive accumulated into the SVG document.  Serialization to
XML text is external (svgwrite); primitives are kept structured. -/
inductive Primitive where
  | rect (x y w h : Q2) (fill : String)
  | circle (cx cy r : Q2) (fill : String)
  | polygon (points : List (Q2 × Q2)) (fill : String)
  | path (cmds : List PathCmd) (fill : String)
  | text (ch : Char) (x y fontSize : Q2) (fill : String)
  | maskedGroup (mx my mw mh : Q2) (inner : List Primitive)

/-- Type of one block-style renderer: RNG state, x, y, square_size,
foreground, background to primitives (in emission order) plus the RNG
state after the style's sub-variant draws. -/
abbrev StyleFn := RNG → ℚ → ℚ → ℚ → String → String → List Primitive × RNG

/-- Embedding of `draw_circle`: background rect, centered foreground circle of
radius `square_size/2`, and with probability 0.3 an inner background-colored
circle of radius `square_size/4`. -/
def draw_circle : StyleFn := fun g x y s fg bg =>
  let base := [Primitive.rect (q2 x) (q2 y) (q2 s) (q2 s) bg,
               Primitive.circle (q2 (x + s / 2)) (q2 (y + s / 2)) (q2 (s / 2)) fg]
  let (inner, g1) := randBernoulli g 3 10
  if inner then
    (base ++ [Primitive.circle (q2 (x + s / 2)) (q2 (y + s / 2)) (q2 (s / 4)) bg], g1)
  else (base, g1)

/-- Embedding of `draw_opposite_circles`: background rect, a mask covering the
cell, and two foreground circles at opposite corners (one of the two diagonals
chosen by `random.choice`), grouped under the mask. -/
def draw_opposite_circles : StyleFn := fun g x y s fg bg =>
  let (offset, g1) := pychoiceD g ((0 : ℚ), (0 : ℚ), s, s) [(s, 0, 0, s)]
  ([Primitive.rect (q2 x) (q2 y) (q2 s) (q2 s) bg,
    Primitive.maskedGroup (q2 x) (q2 y) (q2 s) (q2 s)
      [Primitive.circle (q2 (x + offset.1)) (q2 (y + offset.2.1)) (q2 (s / 2)) fg,
       Primitive.circle (q2 (x + offset.2.2.1)) (q2 (y + offset.2.2.2)) (q2 (s / 2)) fg]],
   g1)

/-- Embedding of the thick-diagonal-line construction of `draw_cross`: offset
the two endpoints by ± the unit normal times half the width to form a 4-point
quadrilateral.  In the source `length = (dx**2 + dy**2) ** 0.5`; at both call
sites `|dx| = |dy|`, so `dx² + dy² = 2·dx²` and the length is exactly
`|dx|·√2`, represented exactly in ℚ[√2]. -/
def thickLine (x1 y1 x2 y2 w : ℚ) : List (Q2 × Q2) :=
  let dx := x2 - x1
  let dy := y2 - y1
  let length : Q2 := ⟨0, |dx|⟩
  let nx := q2 (-dy) / length
  let ny := q2 dx / length
  [(q2 x1 + nx * q2 (w / 2), q2 y1 + ny * q2 (w / 2)),
   (q2 x2 + nx * q2 (w / 2), q2 y2 + ny * q2 (w / 2)),
   (q2 x2 - nx * q2 (w / 2), q2 y2 - ny * q2 (w / 2)),
   (q2 x1 - nx * q2 (w / 2), q2 y1 - ny * q2 (w / 2))]

/-- Embedding of `draw_cross`: with probability 0.5 a "+" made of two
perpendicular bars of thickness `square_size/3`, otherwise an "×" made of two
thick diagonal quadrilaterals of width `square_size/6`. -/
def draw_cross : StyleFn := fun g x y s fg bg =>
  let bgRect := Primitive.rect (q2 x) (q2 y) (q2 s) (q2 s) bg
  let (is_plus, g1) := randBernoulli g 1 2
  if is_plus then
    ([bgRect,
      Primitive.rect (q2 x) (q2 (y + s / 3)) (q2 s) (q2 (s / 3)) fg,
      Primitive.rect (q2 (x + s / 3)) (q2 y) (q2 (s / 3)) (q2 s) fg], g1)
  else
    let w := s / 6
    ([bgRect,
      Primitive.polygon (thickLine x y (x + s) (y + s) w) fg,
      Primitive.polygon (thickLine (x + s) y x (y + s) w) fg], g1)

/-- Embedding of `draw_half_square`: background rect plus a foreground
rectangle (as a 4-point polygon) covering the chosen half of the cell. -/
def draw_half_square : StyleFn := fun g x y s fg bg =>
  let (direction, g1) := pychoiceD g "top" ["right", "bottom", "left"]
  let points : List (ℚ × ℚ) :=
    if direction = "top" then
      [(x, y), (x + s, y), (x + s, y + s / 2), (x, y + s / 2)]
    else if direction = "right" then
      [(x + s / 2, y), (x + s, y), (x + s, y + s), (x + s / 2, y + s)]
    else if direction = "bottom" then
      [(x, y + s / 2), (x + s, y + s / 2), (x + s, y + s), (x, y + s)]
    else
      [(x, y), (x + s / 2, y), (x + s / 2, y + s), (x, y + s)]
  ([Primitive.rect (q2 x) (q2 y) (q2 s) (q2 s) bg,
    Primitive.polygon (points.map fun p => (q2 p.1, q2 p.2)) fg], g1)

/-- Embedding of `draw_diagonal_square`: background rect plus one of the two
triangular halves split by a diagonal. -/
def draw_diagonal_square : StyleFn := fun g x y s fg bg =>
  let (is_tl_br, g1) := randBernoulli g 1 2
  let points : List (ℚ × ℚ) :=
    if is_tl_br then [(x, y), (x + s, y + s), (x, y + s)]
    else [(x + s, y), (x + s, y + s), (x, y)]
  ([Primitive.rect (q2 x) (q2 y) (q2 s) (q2 s) bg,
    Primitive.polygon (points.map fun p => (q2 p.1, q2 p.2)) fg], g1)

/-- Embedding of `draw_quarter_circle`: background rect plus a path made of a
move, a 90° arc of radius `square_size` between two adjacent corners, and a
closing line, for the chosen corner. -/
def draw_quarter_circle : StyleFn := fun g x y s fg bg =>
  let (corner, g1) := pychoiceD g "top-left" ["top-right", "bottom-right", "bottom-left"]
  let cmds : List PathCmd :=
    if corner = "top-left" then
      [PathCmd.move (q2 x) (q2 y),
       PathCmd.arc (q2 s) (q2 s) 0 0 1 (q2 (x + s)) (q2 y),
       PathCmd.line (q2 x) (q2 y)]
    else if corner = "top-right" then
      [PathCmd.move (q2 (x + s)) (q2 y),
       PathCmd.arc (q2 s) (q2 s) 0 0 1 (q2 (x + s)) (q2 (y + s)),
       PathCmd.line (q2 (x + s)) (q2 y)]
    else if corner = "bottom-right" then
      [PathCmd.move (q2 (x + s)) (q2 (y + s)),
       PathCmd.arc (q2 s) (q2 s) 0 0 1 (q2 x) (q2 (y + s)),
       PathCmd.line (q2 (x + s)) (q2 (y + s))]
    else
      [PathCmd.move (q2 x) (q2 (y + s)),
       PathCmd.arc (q2 s) (q2 s) 0 0 1 (q2 x) (q2 y),
       PathCmd.line (q2 x) (q2 (y + s))]
  ([Primitive.rect (q2 x) (q2 y) (q2 s) (q2 s) bg,
    Primitive.path cmds fg], g1)

/-- Embedding of `draw_dots`: background rect plus an n×n grid of foreground
circles, n ∈ {2,3,4} via `random.choice([4, 9, 16])`, each of radius
`0.3 · (square_size/n)` centered in its subcell. -/
def draw_dots : StyleFn := fun g x y s fg bg =>
  let (num_dots, g1) := pychoiceD g 4 [9, 16]
  let n : Nat := if num_dots = 4 then 2 else if num_dots = 9 then 3 else 4
  let cell_size := s / (n : ℚ)
  let dot_radius := cell_size * (3 / 10)
  let dots :=
    ((List.range n).map fun i =>
      (List.range n).map fun j =>
        Primitive.circle (q2 (x + ((i : ℚ) + 1 / 2) * cell_size))
          (q2 (y + ((j : ℚ) + 1 / 2) * cell_size)) (q2 dot_radius) fg).flatten
  (Primitive.rect (q2 x) (q2 y) (q2 s) (q2 s) bg :: dots, g1)

/-- Embedding of `draw_letter_block`: background rect plus one centered
monospace bold glyph chosen by `random.choice` from the fixed character
list, with font size `0.8 · square_size`. -/
def draw_letter_block : StyleFn := fun g x y s fg bg =>
  let (character, g1) := pychoiceD g 'A'
    ['B', 'C', 'D', 'E', 'F', 'G', 'H', 'I', 'J', 'K', 'L', 'M',
     'N', 'O', 'P', 'Q', 'R', 'S', 'T', 'U', 'V', 'W', 'X', 'Y', 'Z',
     '0', '1', '2', '3', '4', '5', '6', '7', '8', '9',
     '+', '-', '*', '/', '=', '#', '@', '&', '%', '$']
  ([Primitive.rect (q2 x) (q2 y) (q2 s) (q2 s) bg,
    Primitive.text character (q2 (x + s / 2)) (q2 (y + s / 2 + s * (3 / 10)))
      (q2 (s * (8 / 10))) fg], g1)

/-- Embedding of the `style_map` dict of `generate_little_block` (all eight
styles, in the source's insertion order). -/
def style_map : List (String × StyleFn) :=
  [("circle", draw_circle),
   ("opposite_circles", draw_opposite_circles),
   ("cross", draw_cross),
   ("half_square", draw_half_square),
   ("diagonal_square", draw_diagonal_square),
   ("quarter_circle", draw_quarter_circle),
   ("dots", draw_dots),
   ("letter_block", draw_letter_block)]

/-- Embedding of the `style_map` dict of `generate_big_block`, where the
`'dots'` entry is commented out in the source. -/
def big_style_map : List (String × StyleFn) :=
  [("circle", draw_circle),
   ("opposite_circles", draw_opposite_circles),
   ("cross", draw_cross),
   ("half_square", draw_half_square),
   ("diagonal_square", draw_diagonal_square),
   ("quarter_circle", draw_quarter_circle),
   ("letter_block", draw_letter_block)]

/-- Style lookup, `style_map[style_name]` over an association list.  The
`none` branch is unreachable at every call site (the chosen name always is
a key of the map the caller filtered against). -/
def lookupStyle (m : List (String × StyleFn)) (name : String) : StyleFn :=
  match m.find? (fun p => p.1 == name) with
  | some p => p.2
  | none => fun g _ _ _ _ _ => ([], g)

/-- Outcome of rendering one grid cell: the chosen colors, the chosen style
name, and the emitted primitives. -/
structure CellResult where
  colors : TwoColors
  styleName : String
  prims : List Primitive

/-- Embedding of `generate_little_block`: pick two colors, filter the caller's
`block_styles` against the style_map keys (falling back to all keys when the
filtered list is empty), pick a style with `random.choice`, render it at
`(i·square_size, j·square_size)`. -/
def generate_little_block (g : RNG) (i j : Nat) (square_size : Nat)
    (color_palette block_styles : List String) :
    Except GenError (CellResult × RNG) :=
  match get_two_colors g color_palette with
  | .error e => .error e
  | .ok (colors, g1) =>
    let available_styles := block_styles.filter fun s => (style_map.map Prod.fst).contains s
    let available_styles :=
      if available_styles.isEmpty then style_map.map Prod.fst else available_styles
    match pychoice g1 available_styles with
    | none => .error .insufficientPalette
    | some (style_name, g2) =>
      let x_pos := ((i * square_size : Nat) : ℚ)
      let y_pos := ((j * square_size : Nat) : ℚ)
      let (prims, g3) :=
        lookupStyle style_map style_name g2 x_pos y_pos (square_size : ℚ)
          colors.foreground colors.background
      .ok (⟨colors, style_name, prims⟩, g3)

/-- Embedding of `generate_grid`: row-major double loop over
`range(num_rows) × range(num_cols)`, accumulating cell results and threading
the RNG; the first failure aborts the run. -/
def generate_grid (g : RNG) (num_rows num_cols square_size : Nat)
    (color_palette block_styles : List String) :
    Except GenError (List CellResult × RNG) :=
  (List.range num_rows).foldl
    (fun acc i => acc.bind fun st =>
      (List.range num_cols).foldl
        (fun acc2 j => acc2.bind fun st2 =>
          (generate_little_block st2.2 i j square_size color_palette block_styles).map
            fun r => (st2.1 ++ [r.1], r.2))
        (.ok st))
    (.ok ([], g))

/-- Outcome of `generate_big_block`: colors, pixel position, chosen style and
emitted primitives of the focal block. -/
structure BigBlockResult where
  colors : TwoColors
  xPos : Int
  yPos : Int
  styleName : String
  prims : List Primitive

/-- Embedding of `generate_big_block`: pick two colors; filter the caller's
`block_styles` against the dots-free big style map, additionally dropping
`'dots'`, falling back to the big map's keys (with `'dots'` removed) when the
filtered list is empty; draw the top-left cell position with
`random.randint(0, num_rows - multiplier)` / `random.randint(0, num_cols -
multiplier)` (an empty range aborts the run: the spec's `LayoutError`);
finally pick a style and render at the multiplied size. -/
def generate_big_block (g : RNG) (num_rows num_cols square_size : Nat)
    (color_palette block_styles : List String) (multiplier : Nat) :
    Except GenError (BigBlockResult × RNG) :=
  match get_two_colors g color_palette with
  | .error e => .error e
  | .ok (colors, g1) =>
    let bigKeys := big_style_map.map Prod.fst
    let available_styles := block_styles.filter fun s => bigKeys.contains s && s != "dots"
    let available_styles :=
      if available_styles.isEmpty then
        if bigKeys.contains "dots" then bigKeys.erase "dots" else bigKeys
      else available_styles
    match randint g1 0 ((num_rows : Int) - (multiplier : Int)) with
    | none => .error .layoutError
    | some (xi, g2) =>
      match randint g2 0 ((num_cols : Int) - (multiplier : Int)) with
      | none => .error .layoutError
      | some (yi, g3) =>
        let x_pos := xi * (square_size : Int)
        let y_pos := yi * (square_size : Int)
        let big_square_size := multiplier * square_size
        match pychoice g3 available_styles with
        | none => .error .layoutError
        | some (style_name, g4) =>
          let (prims, g5) :=
            lookupStyle big_style_map style_name g4 (x_pos : ℚ) (y_pos : ℚ)
              ((big_square_size : Nat) : ℚ) colors.foreground colors.background
          .ok (⟨colors, x_pos, y_pos, style_name, prims⟩, g5)

/-- The chosen style name of a `generate_big_block` outcome, `none` on
failure. -/
def bigBlockStyle (e : Except GenError (BigBlockResult × RNG)) : Option String :=
  e.toOption.map fun r => r.1.styleName

/-- The pixel position of a `generate_big_block` outcome, `none` on
failure. -/
def bigBlockPos (e : Except GenError (BigBlockResult × RNG)) : Option (Int × Int) :=
  e.toOption.map fun r => (r.1.xPos, r.1.yPos)

/-- Embedding of `generate_composition_grid` (src/SVGArtGridV2.py): per cell,
colors come from `sample_image_region` on the cell's image region — the
in-memory raster fed through the fixed-seed KMeans is modelled as the
row-major list of per-cell centroid pairs — then a style is chosen and
rendered exactly as in the palette grid. -/
def generate_composition_grid (g : RNG) (image : List Centroids)
    (num_rows num_cols square_size : Nat) (block_styles : List String) :
    Except GenError (List CellResult × RNG) :=
  (List.range num_rows).foldl
    (fun acc i => acc.bind fun st =>
      (List.range num_cols).foldl
        (fun acc2 j => acc2.bind fun st2 =>
          let colors := sample_image_region (image.getD (i * num_cols + j) ⟨(0, 0, 0), (0, 0, 0)⟩)
          let available_styles := block_styles.filter fun s => (style_map.map Prod.fst).contains s
          let available_styles :=
            if available_styles.isEmpty then style_map.map Prod.fst else available_styles
          match pychoice st2.2 available_styles with
          | none => .error .insufficientPalette
          | some (style_name, g2) =>
            let (prims, g3) :=
              lookupStyle style_map style_name g2 ((i * square_size : Nat) : ℚ)
                ((j * square_size : Nat) : ℚ) (square_size : ℚ)
                colors.foreground colors.background
            .ok (st2.1 ++ [⟨colors, style_name, prims⟩], g3))
        (.ok st))
    (.ok ([], g))

/-- Configuration surface of one generation run, as resolved by the CLI layer
(explicit rows/cols/seed; `compositionMode` models
`args.image and args.mode == 'composition'`). -/
structure Config where
  rows : Nat
  cols : Nat
  squareSize : Nat
  palette : List String
  blockStyles : List String
  bigBlock : Bool
  bigBlockSize : Option Nat
  compositionMode : Bool
  image : List Centroids

/-- The generated SVG document: declared pixel size, the full-canvas
background-gradient rect, the grid cells in emission order, and the optional
focal block (drawn last). -/
structure Document where
  width : Nat
  height : Nat
  background : Primitive
  cells : List CellResult
  focal : Option BigBlockResult

/-- Embedding of `main` after argument resolution: seed the RNG, declare
`svg_width = num_rows * square_size` and `svg_height = num_cols *
square_size`, draw the background gradient rect, generate the grid (palette
or composition mode), and append the focal block when enabled and not in
composition mode (multiplier explicit or `random.choice([2, 3])`).
`create_background_colors` reads `palette[0]` and `palette[1]`, so a palette
with fewer than two entries aborts the run before anything is generated; its
HSL gradient-stop derivation is not needed by any claim and only the
gradient-filled rect is kept in the document. -/
def runSVGArtGrid (cfg : Config) (seed : Nat) : Except GenError Document :=
  let g := mkRNG seed
  let svg_width := cfg.rows * cfg.squareSize
  let svg_height := cfg.cols * cfg.squareSize
  if cfg.palette.length < 2 then .error .insufficientPalette
  else
    let bgRect :=
      Primitive.rect (q2 0) (q2 0) (q2 (svg_width : ℚ)) (q2 (svg_height : ℚ))
        "url(#background_gradient)"
    if cfg.compositionMode then
      (generate_composition_grid g cfg.image cfg.rows cfg.cols cfg.squareSize
          cfg.blockStyles).map
        fun r => ⟨svg_width, svg_height, bgRect, r.1, none⟩
    else
      (generate_grid g cfg.rows cfg.cols cfg.squareSize cfg.palette
          cfg.blockStyles).bind fun r =>
        if cfg.bigBlock then
          let (m, g1) :=
            match cfg.bigBlockSize with
            | some m => (m, r.2)
            | none => pychoiceD r.2 2 [3]
          (generate_big_block g1 cfg.rows cfg.cols cfg.squareSize cfg.palette
              cfg.blockStyles m).map
            fun rb => ⟨svg_width, svg_height, bgRect, r.1, some rb.1⟩
        else .ok ⟨svg_width, svg_height, bgRect, r.1, none⟩

/-- The declared (width, height) of a run's document, `none` on failure. -/
def docDims (e : Except GenError Document) : Option (Nat × Nat) :=
  e.toOption.map fun d => (d.width, d.height)

/-- A reference to a Python list object. -/
abbrev Ref := Nat

/-- A store of Python list objects, to make aliasing and in-place mutation
explicit (Python lists are mutable heap objects). -/
abbrev Heap := List (List String)

/-- Dereference a list object. -/
def heapLookup (h : Heap) (r : Ref) : List String := h.getD r []

/-- In-place update of a list object. -/
def heapSet (h : Heap) (r : Ref) (v : List String) : Heap := h.set r v

/-- Allocate a fresh list object (`list.copy()` allocates). -/
def heapAlloc (h : Heap) (v : List String) : Heap × Ref := (h ++ [v], h.length)

/-- Heap-explicit embedding of `get_two_colors`: `color_palette.copy()`
allocates a fresh list object, and `pop` mutates that fresh object in place;
the caller's palette object is never written.  Returns the outcome together
with the heap and RNG after the call. -/
def get_two_colors_heap (h : Heap) (paletteRef : Ref) (g : RNG) :
    Except GenError TwoColors × Heap × RNG :=
  let (h1, clRef) := heapAlloc h (heapLookup h paletteRef)
  match randint g 0 (((heapLookup h1 clRef).length : Int) - 1) with
  | none => (.error .insufficientPalette, h1, g)
  | some (ci, g1) =>
    let idx := ci.toNat
    let background := (heapLookup h1 clRef).getD idx ""
    let h2 := heapSet h1 clRef ((heapLookup h1 clRef).eraseIdx idx)
    match pychoice g1 (heapLookup h2 clRef) with
    | none => (.error .insufficientPalette, h2, g1)
    | some (foreground, g2) => (.ok ⟨foreground, background⟩, h2, g2)

theorem getD_mem {α : Type} (xs : List α) (k : Nat) (d : α) (hd : d ∈ xs) :
    xs.getD k d ∈ xs := by
  rcases Nat.lt_or_ge k xs.length with h | h
  · rw [List.getD_eq_getElem _ _ h]; exact List.getElem_mem h
  · rw [List.getD_eq_default _ _ h]; exact hd

theorem pychoice_mem {α : Type} {g g' : RNG} {xs : List α} {a : α}
    (h : pychoice g xs = some (a, g')) : a ∈ xs := by
  cases xs with
  | nil => simp [pychoice] at h
  | cons x rest =>
    simp only [pychoice] at h
    injection h with h
    injection h with h1 h2
    subst h1
    exact getD_mem _ _ _ (List.mem_cons_self x rest)

theorem pychoice_ne_nil {α : Type} (g : RNG) (xs : List α) (h : xs ≠ []) :
    ∃ a g', pychoice g xs = some (a, g') ∧ a ∈ xs := by
  cases xs with
  | nil => exact absurd rfl h
  | cons x rest =>
    refine ⟨_, _, rfl, ?_⟩
    exact getD_mem _ _ _ (List.mem_cons_self x rest)

theorem randint_bounds {g g' : RNG} {lo hi v : Int}
    (h : randint g lo hi = some (v, g')) : lo ≤ v ∧ v ≤ hi := by
  unfold randint at h
  split at h
  · exact absurd h (by simp)
  · next hlt =>
    simp only [Option.some.injEq, Prod.mk.injEq] at h
    obtain ⟨h1, _⟩ := h
    subst h1
    have hne : hi - lo + 1 ≠ 0 := by omega
    have hpos : (0 : Int) < hi - lo + 1 := by omega
    have h2 := Int.emod_nonneg ((g.next.1 : Int)) hne
    have h3 := Int.emod_lt_of_pos ((g.next.1 : Int)) hpos
    omega

theorem randint_eq_some {g : RNG} {lo hi : Int} (h : lo ≤ hi) :
    randint g lo hi =
      some (lo + ((g.next.1 : Int)) % (hi - lo + 1), g.next.2) := by
  unfold randint
  rw [if_neg (by omega)]

theorem ne_get_of_mem_eraseIdx {α : Type} :
    ∀ (p : List α) (i : Nat) (hi : i < p.length), p.Nodup →
      ∀ a ∈ p.eraseIdx i, a ≠ p.get ⟨i, hi⟩ := by
  intro p
  induction p with
  | nil => intro i hi; simp at hi
  | cons x xs ih =>
    intro i hi hnd a ha
    obtain ⟨hx, hxs⟩ := List.nodup_cons.mp hnd
    cases i with
    | zero =>
      simp only [List.eraseIdx] at ha
      simp only [List.get]
      intro hax
      subst hax
      exact hx ha
    | succ j =>
      simp only [List.eraseIdx] at ha
      rcases List.mem_cons.mp ha with rfl | ha2
      · simp only [List.get]
        intro hax
        have : xs.get ⟨j, by simpa using hi⟩ ∈ xs := List.get_mem xs j (by simpa using hi)
        rw [← hax] at this
        exact hx this
      · simp only [List.get]
        exact ih j (by simpa using hi) hxs a ha2

theorem get_two_colors_ok {g : RNG} {p : List String} (hp : 2 ≤ p.length) :
    ∃ i : Fin p.length, ∃ fg g',
      get_two_colors g p = .ok (⟨fg, p.get i⟩, g') ∧ fg ∈ p.eraseIdx i := by
  have hle : (0 : Int) ≤ (p.length : Int) - 1 := by omega
  have hb := randint_bounds (g := g) (randint_eq_some hle)
  set ci : Int := 0 + ((g.next.1 : Int)) % ((p.length : Int) - 1 - 0 + 1) with hci
  have hidx : ci.toNat < p.length := by omega
  have herase : p.eraseIdx ci.toNat ≠ [] := by
    intro hnil
    have := List.length_eraseIdx (l := p) (i := ci.toNat)
    rw [hnil] at this
    simp [hidx] at this
    omega
  obtain ⟨fg, g', hch, hmem⟩ := pychoice_ne_nil g.next.2 (p.eraseIdx ci.toNat) herase
  refine ⟨⟨ci.toNat, hidx⟩, fg, g', ?_, hmem⟩
  simp only [get_two_colors]
  rw [randint_eq_some hle]
  simp only [List.get?_eq_get hidx]
  rw [hch]

theorem get_two_colors_short {g : RNG} {p : List String} (hp : p.length < 2) :
    get_two_colors g p = .error .insufficientPalette := by
  match p, hp with
  | [], _ => rfl
  | [c], _ =>
    simp only [get_two_colors]
    rw [randint_eq_some (by norm_num)]
    simp [Int.emod_one, pychoice]

theorem getD_set_ne (l : Heap) (i r : Nat) (v : List String) (hir : i ≠ r) :
    (l.set i v).getD r [] = l.getD r [] := by
  rw [List.getD_eq_getD_get?, List.getD_eq_getD_get?, List.get?_set_ne _ _ hir]

/-- C9: the color mix operation (per-channel integer floor average of two RGB
colors) is commutative: `mix(a,b) == mix(b,a)`. -/
theorem mix_comm (a b : Nat × Nat × Nat) : mix a b = mix b a := by
  simp [mix, Nat.add_comm]

/-- C1 counterexample: a palette with at least two distinct colors but a
duplicated entry on which `get_two_colors` returns an equal
foreground/background pair (background index 0 picks the first `"#ff0000"`,
the working copy still holds the duplicate, and the foreground draw picks
it). -/
theorem get_two_colors_duplicate_palette_cex :
    twoColorsOf (get_two_colors ⟨fun _ => 0, 0⟩ ["#ff0000", "#ff0000", "#00ff00"]) =
      some ⟨"#ff0000", "#ff0000"⟩ ∧
    (["#ff0000", "#ff0000", "#00ff00"] : List String).dedup.length = 2 := by
  constructor
  · rfl
  · decide

/-- C1 (amended): for every palette whose entries are pairwise distinct (no
duplicate entries) and of length at least 2, `get_two_colors` returns a pair
whose foreground differs from its background. -/
theorem get_two_colors_nodup_distinct (g : RNG) (p : List String)
    (hnd : p.Nodup) (hp : 2 ≤ p.length) :
    ∀ tc ∈ twoColorsOf (get_two_colors g p), tc.foreground ≠ tc.background := by
  intro tc htc
  obtain ⟨i, fg, g', heq, hmem⟩ := get_two_colors_ok hp (g := g)
  rw [heq] at htc
  simp only [twoColorsOf, Except.toOption, Option.map_some', Option.mem_def,
    Option.some.injEq] at htc
  subst htc
  exact ne_get_of_mem_eraseIdx p i.1 i.2 hnd fg hmem

/-- C1 witness: at a concrete nodup palette the returned pair is distinct. -/
theorem get_two_colors_nodup_distinct_witness :
    (⟨"#ff0000", "#00ff00"⟩ : TwoColors).foreground ≠
      (⟨"#ff0000", "#00ff00"⟩ : TwoColors).background :=
  get_two_colors_nodup_distinct (mkRNG 0) ["#ff0000", "#00ff00"]
    (by decide) (by decide) ⟨"#ff0000", "#00ff00"⟩ (by rfl)

/-- C5: with fewer than 2 palette colors the two-color draw fails with the
insufficient-palette error; with 2 or more it succeeds, the background is the
palette entry at the drawn index and the foreground is drawn from the working
copy with that entry removed. -/
theorem get_two_colors_palette_policy (g : RNG) (p : List String) :
    (p.length < 2 → get_two_colors g p = .error .insufficientPalette) ∧
    (2 ≤ p.length → ∃ i : Fin p.length, ∃ fg g',
      get_two_colors g p = .ok (⟨fg, p.get i⟩, g') ∧ fg ∈ p.eraseIdx i) :=
  ⟨fun hp => get_two_colors_short hp, fun hp => get_two_colors_ok hp⟩

/-- C5 witness: a 1-color palette fails and a 2-color palette succeeds. -/
theorem get_two_colors_palette_policy_witness :
    (get_two_colors (mkRNG 0) ["#ff0000"] = .error .insufficientPalette) ∧
    (∃ i : Fin 2, ∃ fg g',
      get_two_colors (mkRNG 0) ["#ff0000", "#00ff00"] =
        .ok (⟨fg, (["#ff0000", "#00ff00"] : List String).get i⟩, g') ∧
      fg ∈ (["#ff0000", "#00ff00"] : List String).eraseIdx i) :=
  ⟨(get_two_colors_palette_policy (mkRNG 0) ["#ff0000"]).1 (by decide),
   (get_two_colors_palette_policy (mkRNG 0) ["#ff0000", "#00ff00"]).2 (by decide)⟩

/-- C3: `sample_image_region` hex-encodes the two centroids of the 2-cluster
extraction and returns the one with the strictly lower luma brightness as the
foreground and the one with the strictly higher brightness as the
background. -/
theorem sample_image_region_darker_foreground (cs : Centroids) :
    (brightness cs.c0 < brightness cs.c1 →
      sample_image_region cs = ⟨centroidHex cs.c0, centroidHex cs.c1⟩) ∧
    (brightness cs.c1 < brightness cs.c0 →
      sample_image_region cs = ⟨centroidHex cs.c1, centroidHex cs.c0⟩) := by
  constructor
  · intro h
    simp only [sample_image_region]
    rw [if_neg]
    · rfl
    · rintro (hlt | ⟨heq, _⟩)
      · exact absurd h (by linarith)
      · exact absurd h (by rw [heq]; exact lt_irrefl _)
  · intro h
    simp only [sample_image_region]
    rw [if_pos (Or.inl h)]
    rfl

/-- C3 witness: a dark and a light centroid get assigned in brightness
order. -/
theorem sample_image_region_darker_foreground_witness :
    sample_image_region ⟨(0, 0, 0), (255, 255, 255)⟩ =
      ⟨centroidHex (0, 0, 0), centroidHex (255, 255, 255)⟩ :=
  (sample_image_region_darker_foreground ⟨(0, 0, 0), (255, 255, 255)⟩).1
    (by norm_num [brightness])

/-- C10: `get_two_colors` never mutates its input palette: the removal
happens on the freshly allocated copy, so the caller's palette object is
element-for-element unchanged after the call (in every outcome). -/
theorem get_two_colors_no_mutation (h : Heap) (r : Ref) (g : RNG)
    (hr : r < h.length) :
    heapLookup (get_two_colors_heap h r g).2.1 r = heapLookup h r := by
  have hne : h.length ≠ r := (Nat.ne_of_lt hr).symm
  simp only [get_two_colors_heap, heapAlloc, heapSet, heapLookup]
  split
  · exact List.getD_append _ _ _ _ hr
  · split
    · rw [getD_set_ne _ _ _ _ (by simpa using hne)]
      exact List.getD_append _ _ _ _ hr
    · rw [getD_set_ne _ _ _ _ (by simpa using hne)]
      exact List.getD_append _ _ _ _ hr

/-- C10 witness: a concrete three-object heap is unchanged at the palette
reference. -/
theorem get_two_colors_no_mutation_witness :
    heapLookup
      (get_two_colors_heap [["#ff0000", "#00ff00"], ["#123456"]] 0 (mkRNG 5)).2.1 0 =
    heapLookup [["#ff0000", "#00ff00"], ["#123456"]] 0 :=
  get_two_colors_no_mutation [["#ff0000", "#00ff00"], ["#123456"]] 0 (mkRNG 5)
    (by decide)

/-- C8: the run is a deterministic function of the configuration and the
seed: two runs with equal configuration (grid, palette, styles, focal
settings, image) and equal seed produce equal documents — in particular
identical color choices, style choices, sub-variant choices, and focal
placement.  All randomness is drawn from the single seeded stream threaded
through the run. -/
theorem run_deterministic (c1 c2 : Config) (s1 s2 : Nat)
    (hc : c1 = c2) (hs : s1 = s2) :
    runSVGArtGrid c1 s1 = runSVGArtGrid c2 s2 := by
  subst hc
  subst hs
  rfl

/-- C8 witness: two runs at the same concrete configuration and seed
coincide. -/
theorem run_deterministic_witness :
    runSVGArtGrid
        ⟨3, 3, 10, ["#aa0000", "#00bb00", "#0000cc"], ["circle", "dots"],
          true, none, false, []⟩ 42 =
      runSVGArtGrid
        ⟨3, 3, 10, ["#aa0000", "#00bb00", "#0000cc"], ["circle", "dots"],
          true, none, false, []⟩ 42 :=
  run_deterministic _ _ 42 42 rfl rfl

/-- C4: when the focal multiplier exceeds the grid (rows = cols = 2, m = 3),
`generate_big_block` fails with the layout error: the position draw
`randint(0, num_rows - multiplier)` has an empty range, and this happens
before the style is chosen and any focal primitive is emitted (the error
outcome carries no primitives). -/
theorem generate_big_block_layout_failure (g : RNG) (size : Nat)
    (palette styles : List String) (hp : 2 ≤ palette.length) :
    generate_big_block g 2 2 size palette styles 3 = .error .layoutError := by
  obtain ⟨i, fg, g', heq, _⟩ := get_two_colors_ok (g := g) hp
  have hnone : randint g' 0 (((2 : Nat) : Int) - ((3 : Nat) : Int)) = none := by
    simp [randint]
  simp only [generate_big_block]
  rw [heq]
  simp only [hnone]

/-- C4 witness: concrete 2×2 grid with multiplier 3 fails with the layout
error. -/
theorem generate_big_block_layout_failure_witness :
    generate_big_block (mkRNG 0) 2 2 10 ["#ff0000", "#00ff00"] ["circle"] 3 =
      .error .layoutError :=
  generate_big_block_layout_failure (mkRNG 0) 10 ["#ff0000", "#00ff00"]
    ["circle"] (by decide)

theorem generate_big_block_ok_style {g g' : RNG} {rows cols size m : Nat}
    {palette styles : List String} {r : BigBlockResult}
    (h : generate_big_block g rows cols size palette styles m = .ok (r, g')) :
    r.styleName ≠ "dots" := by
  simp only [generate_big_block] at h
  split at h
  · exact absurd h (by simp)
  · split at h
    · exact absurd h (by simp)
    · split at h
      · exact absurd h (by simp)
      · split at h
        · exact absurd h (by simp)
        · next sn g4 hch =>
          have hmem := pychoice_mem hch
          simp only [Except.ok.injEq, Prod.mk.injEq] at h
          obtain ⟨h1, _⟩ := h
          subst h1
          simp only
          split at hmem
          · split at hmem
            · next hcond =>
              exact absurd hcond (by decide)
            · simp only [big_style_map, List.map_cons, List.map_nil,
                List.mem_cons, List.not_mem_nil, or_false] at hmem
              rcases hmem with rfl | rfl | rfl | rfl | rfl | rfl | rfl <;> decide
          · have hpred := (List.mem_filter.mp hmem).2
            simp only [Bool.and_eq_true, bne_iff_ne, ne_eq] at hpred
            exact hpred.2

/-- C6: the style selected for the focal (oversized) block is never `dots`,
for every caller-supplied allow-list (including lists containing `dots` and
lists whose filtered intersection with the registry is empty). -/
theorem generate_big_block_never_dots (g : RNG) (rows cols size : Nat)
    (palette styles : List String) (m : Nat) :
    bigBlockStyle (generate_big_block g rows cols size palette styles m) ≠
      some "dots" := by
  unfold bigBlockStyle
  cases hgen : generate_big_block g rows cols size palette styles m with
  | error e => simp [Except.toOption]
  | ok res =>
    obtain ⟨r1, g1⟩ := res
    simp only [Except.toOption, Option.map_some', ne_eq, Option.some.injEq]
    exact generate_big_block_ok_style hgen

theorem generate_big_block_ok_pos {g g' : RNG} {rows cols size m : Nat}
    {palette styles : List String} {r : BigBlockResult}
    (h : generate_big_block g rows cols size palette styles m = .ok (r, g')) :
    (∃ xi : Int, 0 ≤ xi ∧ xi ≤ (rows : Int) - (m : Int) ∧
      r.xPos = xi * (size : Int)) ∧
    (∃ yi : Int, 0 ≤ yi ∧ yi ≤ (cols : Int) - (m : Int) ∧
      r.yPos = yi * (size : Int)) := by
  simp only [generate_big_block] at h
  split at h
  · exact absurd h (by simp)
  · split at h
    · exact absurd h (by simp)
    · next xi g2 hx =>
      split at h
      · exact absurd h (by simp)
      · next yi g3 hy =>
        split at h
        · exact absurd h (by simp)
        · have hxb := randint_bounds hx
          have hyb := randint_bounds hy
          simp only [Except.ok.injEq, Prod.mk.injEq] at h
          obtain ⟨h1, _⟩ := h
          subst h1
          exact ⟨⟨xi, hxb.1, by simpa using hxb.2, rfl⟩,
                 ⟨yi, hyb.1, by simpa using hyb.2, rfl⟩⟩

/-- C7: whenever rows ≥ multiplier and cols ≥ multiplier, every focal-block
placement satisfies `0 ≤ x ≤ (rows−multiplier)·square_size` and
`0 ≤ y ≤ (cols−multiplier)·square_size`, so the footprint stays inside the
grid. -/
theorem generate_big_block_footprint (g : RNG) (rows cols size : Nat)
    (palette styles : List String) (m : Nat) (hr : m ≤ rows) (hc : m ≤ cols) :
    ∀ pos ∈ bigBlockPos (generate_big_block g rows cols size palette styles m),
      0 ≤ pos.1 ∧ pos.1 ≤ ((rows : Int) - (m : Int)) * (size : Int) ∧
      0 ≤ pos.2 ∧ pos.2 ≤ ((cols : Int) - (m : Int)) * (size : Int) := by
  intro pos hpos
  simp only [bigBlockPos, Option.mem_def] at hpos
  cases hgen : generate_big_block g rows cols size palette styles m with
  | error e => rw [hgen] at hpos; simp [Except.toOption] at hpos
  | ok res =>
    obtain ⟨r1, g1⟩ := res
    rw [hgen] at hpos
    simp only [Except.toOption, Option.map_some', Option.some.injEq] at hpos
    obtain ⟨hx, hy⟩ := generate_big_block_ok_pos hgen
    obtain ⟨xi, hxi0, hxile, hxeq⟩ := hx
    obtain ⟨yi, hyi0, hyile, hyeq⟩ := hy
    have hsz : (0 : Int) ≤ (size : Int) := Int.natCast_nonneg size
    subst hpos
    refine ⟨?_, ?_, ?_, ?_⟩
    · simp only [hxeq]; exact mul_nonneg hxi0 hsz
    · simp only [hxeq]; exact mul_le_mul_of_nonneg_right hxile hsz
    · simp only [hyeq]; exact mul_nonneg hyi0 hsz
    · simp only [hyeq]; exact mul_le_mul_of_nonneg_right hyile hsz

/-- C7 witness: a concrete 3×3 grid with multiplier 2 places the focal block
at (10, 0), inside the allowed footprint. -/
theorem generate_big_block_footprint_witness :
    0 ≤ ((10 : Int), (0 : Int)).1 ∧
    ((10 : Int), (0 : Int)).1 ≤ (((3 : Nat) : Int) - ((2 : Nat) : Int)) * ((10 : Nat) : Int) ∧
    0 ≤ ((10 : Int), (0 : Int)).2 ∧
    ((10 : Int), (0 : Int)).2 ≤ (((3 : Nat) : Int) - ((2 : Nat) : Int)) * ((10 : Nat) : Int) :=
  generate_big_block_footprint (mkRNG 0) 3 3 10 ["#ff0000", "#00ff00"]
    ["circle"] 2 (by decide) (by decide) ((10 : Int), (0 : Int)) (by rfl)

theorem runSVGArtGrid_ok_dims {cfg : Config} {seed : Nat} {d : Document}
    (h : runSVGArtGrid cfg seed = .ok d) :
    d.width = cfg.rows * cfg.squareSize ∧ d.height = cfg.cols * cfg.squareSize := by
  simp only [runSVGArtGrid, Except.map, Except.bind] at h
  split at h
  · exact absurd h (by simp)
  · split at h
    · split at h
      · exact absurd h (by simp)
      · simp only [Except.ok.injEq] at h
        rw [← h]
        exact ⟨rfl, rfl⟩
    · split at h
      · exact absurd h (by simp)
      · split at h
        · split at h
          · exact absurd h (by simp)
          · simp only [Except.ok.injEq] at h
            rw [← h]
            exact ⟨rfl, rfl⟩
        · simp only [Except.ok.injEq] at h
          rw [← h]
          exact ⟨rfl, rfl⟩

/-- C2 counterexample: a valid 1×2 grid with cell size 10 produces a document
whose declared size is (rows·cellSize, cols·cellSize) = (10, 20), so the
declared width does not equal cols·cellSize = 20. -/
theorem svg_dims_swapped_cex :
    docDims (runSVGArtGrid
        ⟨1, 2, 10, ["#ff0000", "#00ff00"], ["half_square"],
          false, none, false, []⟩ 0) = some (1 * 10, 2 * 10) ∧
    (1 * 10 : Nat) ≠ 2 * 10 := by
  constructor
  · rfl
  · decide

/-- C2 (amended): for every configuration with positive rows, cols and cell
size, the generated document's declared width equals rows·squareSize and its
declared height equals cols·squareSize (the source computes `svg_width =
num_rows * square_size` and `svg_height = num_cols * square_size`; the
claim's cols-for-width pairing holds only on square grids). -/
theorem svg_dims_rows_width (cfg : Config) (seed : Nat)
    (h1 : 0 < cfg.rows) (h2 : 0 < cfg.cols) (h3 : 0 < cfg.squareSize) :
    docDims (runSVGArtGrid cfg seed) =
      (runSVGArtGrid cfg seed).toOption.map
        (fun _ => (cfg.rows * cfg.squareSize, cfg.cols * cfg.squareSize)) := by
  unfold docDims
  cases hrun : runSVGArtGrid cfg seed with
  | error e => rfl
  | ok d =>
    obtain ⟨hw, hh⟩ := runSVGArtGrid_ok_dims hrun
    simp [Except.toOption, hw, hh]

/-- C2 witness: a concrete 2×2 run declares the amended dimensions. -/
theorem svg_dims_rows_width_witness :
    docDims (runSVGArtGrid
        ⟨2, 2, 5, ["#ff0000", "#00ff00"], ["cross"],
          false, none, false, []⟩ 1) =
      (runSVGArtGrid
        ⟨2, 2, 5, ["#ff0000", "#00ff00"], ["cross"],
          false, none, false, []⟩ 1).toOption.map
        (fun _ => (2 * 5, 2 * 5)) :=
  svg_dims_rows_width
    ⟨2, 2, 5, ["#ff0000", "#00ff00"], ["cross"], false, none, false, []⟩ 1
    (by decide) (by decide) (by decide)
